import Mathlib

/-!
Shallow embedding of `server/services/store/sqlstore/board.go` from the
okrbest-plugin-boards repository: the versioned board store, the membership
resolver, and the board search engine, modelled as pure functions over an
explicit store state and an environment of external collaborators.

Modelling conventions:
* SQL tables become Lean lists kept in row-insertion order; `insert_at`
  timestamps of history tables are abstracted by list position (each insert
  is strictly later than all previous ones), so `ORDER BY insert_at DESC`
  is list reversal and the secondary `update_at` key never has to break a tie.
* Go `map[string]interface{}` values become `Option (List (String × String))`:
  `none` is Go's nil map; JSON (un)marshalling through `MarshalJSONB` is an
  external codec and is modelled as the identity embedding on this type.
* Fallible Go code returns `Except StoreErr`; assigning into a nil map, which
  panics in Go, is modelled by the distinguished error `StoreErr.nilMapPanic`.
* External collaborators (user lookup, plugin channel/team membership APIs,
  the `ChannelMembers`/`TeamMembers` tables and the SHA-256 routine from the
  Go standard library) live in an `Env` record of oracle functions.
-/

/-- Errors surfaced by the store layer. `notFound` carries the message string
used at the corresponding `model.NewErrNotFound` call site; `nilMapPanic`
models the Go runtime panic on assignment into a nil map. -/
inductive StoreErr where
  | notFound (entity : String)
  | nilMapPanic
deriving Repr, DecidableEq

/-- Modelled from the spec: the reserved system user id (`model.SystemUserID`,
declared outside this file); only its distinguishedness matters. -/
def SystemUserID : String := "system"

/-- Modelled from the spec: the reserved global-scope team id
(`model.GlobalTeamID`, declared outside this file). -/
def GlobalTeamID : String := "0"

/-- Modelled from the spec: the open board type tag (`model.BoardTypeOpen`). -/
def BoardTypeOpen : String := "O"

/-- Modelled from the spec: the private board type tag (`model.BoardTypePrivate`). -/
def BoardTypePrivate : String := "P"

/-- Go `model.Board`: the board entity. `properties` is `none` for Go's nil map;
`cardProperties` elements are opaque schema objects. -/
structure Board where
  id : String
  teamID : String
  channelID : String
  createdBy : String
  modifiedBy : String
  type : String
  minimumRole : String
  title : String
  description : String
  icon : String
  showDescription : Bool
  isTemplate : Bool
  templateVersion : Int
  properties : Option (List (String × String))
  cardProperties : List String
  createAt : Int
  updateAt : Int
  deleteAt : Int
deriving Repr, DecidableEq

/-- A stored row of the `board_members` table (explicit membership). -/
structure MemberRow where
  boardID : String
  userID : String
  roles : String
  schemeAdmin : Bool
  schemeEditor : Bool
  schemeCommenter : Bool
  schemeViewer : Bool
deriving Repr, DecidableEq

/-- Go `model.BoardMember` as returned to callers: the stored columns joined with
the board's `minimum_role` plus the `synthetic` marker. -/
structure BoardMember where
  boardID : String
  userID : String
  roles : String
  schemeAdmin : Bool
  schemeEditor : Bool
  schemeCommenter : Bool
  schemeViewer : Bool
  minimumRole : String
  synthetic : Bool
deriving Repr, DecidableEq

/-- A `board_members_history` row: `(board_id, user_id, action)`, in insertion
order. -/
structure MemberHistoryRow where
  boardID : String
  userID : String
  action : String
deriving Repr, DecidableEq

/-- Calls forwarded to the external children-cascade collaborator
(`deleteBlockChildren` / `undeleteBlockChildren`). -/
inductive ChildOp where
  | deleteChildren (boardID userID : String)
  | undeleteChildren (boardID userID : String)
deriving Repr, DecidableEq

/-- The persistent state: the `boards` live table, the append-only
`boards_history` table, the `board_members` table, the append-only
`board_members_history` table, and the trace of children-cascade calls. -/
structure StoreState where
  boards : List Board
  boardsHistory : List Board
  boardMembers : List MemberRow
  membersHistory : List MemberHistoryRow
  childOps : List ChildOp
deriving Repr, DecidableEq

/-- A user record as exposed by the external user-lookup collaborator. -/
structure User where
  isGuest : Bool
deriving Repr, DecidableEq

/-- External collaborators. `users` models `GetUserByID` (a missing user is a
NotFound error, per the spec's error taxonomy); `channelMemberAPI` /
`teamMemberAPI` model the plugin `GetChannelMember` / `GetTeamMember` found
checks; `channelRows` is the `ChannelMembers` table as `(channelId, userId)`
pairs; `teamRows` is the `TeamMembers` table as `(teamid, userid, deleteAt)`
triples; `sha256hex` is `crypto/sha256` followed by hex formatting;
`propertyMatch` is the dialect-specific JSON property-name existence
predicate evaluated by the database. -/
structure Env where
  users : String → Option User
  channelMemberAPI : String → String → Bool
  teamMemberAPI : String → String → Bool
  channelRows : List (String × String)
  teamRows : List (String × String × Int)
  sha256hex : String → String
  propertyMatch : String → Board → Bool

/-- Go map assignment `m[k] = v` on a non-nil map: replace the binding if the
key is present, otherwise add it. -/
def setProp (m : List (String × String)) (k v : String) : List (String × String) :=
  if m.any (fun p => p.1 == k) then
    m.map (fun p => if p.1 == k then (k, v) else p)
  else
    m ++ [(k, v)]

/-- Model of `getBoard`: first `boards` row whose `id` matches (`getBoardByCondition`
returns `boards[0]`). -/
def getBoard (st : StoreState) (boardID : String) : Option Board :=
  st.boards.find? (fun b => b.id == boardID)

/-- Go `model.QueryBoardHistoryOptions`. -/
structure QueryBoardHistoryOptions where
  beforeUpdateAt : Int
  afterUpdateAt : Int
  limit : Nat
  descending : Bool
deriving Repr, DecidableEq

/-- Model of `getBoardHistory`: `boards_history` rows with the given id, filtered by
the `update_at` window, ordered by insertion (descending when requested),
truncated to `limit` when it is nonzero. -/
def getBoardHistory (st : StoreState) (boardID : String)
    (opts : QueryBoardHistoryOptions) : List Board :=
  let rows := st.boardsHistory.filter (fun b => b.id == boardID)
  let rows := if opts.beforeUpdateAt != 0 then
    rows.filter (fun b => b.updateAt < opts.beforeUpdateAt) else rows
  let rows := if opts.afterUpdateAt != 0 then
    rows.filter (fun b => b.updateAt > opts.afterUpdateAt) else rows
  let rows := if opts.descending then rows.reverse else rows
  if opts.limit != 0 then rows.take opts.limit else rows

/-- The first phase of `insertBoard`: for template boards owned by the
reserved global team, the tracking id derived from the title is written into
`properties` before the properties are marshalled; in Go this map assignment
panics when `Properties` is a nil map. -/
def trackingTemplateStep (env : Env) (board : Board) : Except StoreErr Board :=
  if board.isTemplate && board.teamID == GlobalTeamID then
    match board.properties with
    | none => Except.error StoreErr.nilMapPanic
    | some m =>
        Except.ok { board with
          properties := some (setProp m "trackingTemplateId" (env.sha256hex board.title)) }
  else
    Except.ok board

/-- The column set written by the `UPDATE` branch of `insertBoard` applied to
a stored row `ex`: every column of `src` except `id`, `team_id`, `created_by`
and `create_at`, which keep the stored row's values. -/
def applyBoardUpdate (src ex : Board) : Board :=
  { ex with
    modifiedBy := src.modifiedBy
    type := src.type
    channelID := src.channelID
    minimumRole := src.minimumRole
    title := src.title
    description := src.description
    icon := src.icon
    showDescription := src.showDescription
    isTemplate := src.isTemplate
    templateVersion := src.templateVersion
    properties := src.properties
    cardProperties := src.cardProperties
    updateAt := src.updateAt
    deleteAt := src.deleteAt }

/-- The second phase of `insertBoard`: set `modified_by`/`update_at` on the
input, upsert the live row, and mirror the input row into history. In the
update branch only the mutable columns are rewritten on the live row —
`team_id`, `created_by` and `create_at` keep their stored values — while the
history mirror always records the input's values for them. -/
def insertBoardCore (st : StoreState) (board : Board) (userID : String)
    (now : Int) : Board × StoreState :=
  let existingBoard := getBoard st board.id
  let board := { board with modifiedBy := userID, updateAt := now }
  match existingBoard with
  | some _ =>
      let boards := st.boards.map (fun ex =>
        if ex.id == board.id then applyBoardUpdate board ex else ex)
      (board, { st with boards := boards, boardsHistory := st.boardsHistory ++ [board] })
  | none =>
      let board := { board with createdBy := userID, createAt := now }
      (board,
        { st with
          boards := st.boards ++ [board]
          boardsHistory := st.boardsHistory ++ [board] })

/-- Model of `insertBoard`: the tracking-id phase followed by the upsert-and-mirror
phase. -/
def insertBoard (env : Env) (st : StoreState) (board : Board) (userID : String)
    (now : Int) : Except StoreErr (Board × StoreState) :=
  (trackingTemplateStep env board).map (fun b => insertBoardCore st b userID now)

/-- Model of `deleteBoardAndChildren`: snapshot the board into history with
`modified_by = userID` and `update_at = delete_at = now`, remove the live row
(guarded by id and team match), and cascade to children unless
`keepChildren`. -/
def deleteBoardAndChildren (st : StoreState) (boardID userID : String) (now : Int)
    (keepChildren : Bool) : Except StoreErr StoreState :=
  match getBoard st boardID with
  | none => Except.error (StoreErr.notFound "boards")
  | some board =>
      let snapshot := { board with modifiedBy := userID, updateAt := now, deleteAt := now }
      let st := { st with boardsHistory := st.boardsHistory ++ [snapshot] }
      let st := { st with
        boards := st.boards.filter (fun b =>
          !(b.id == boardID && b.teamID == board.teamID)) }
      if keepChildren then
        Except.ok st
      else
        Except.ok { st with childOps := st.childOps ++ [ChildOp.deleteChildren boardID userID] }

/-- Model of `undeleteBoard`: read the newest history snapshot; a missing or
not-deleted snapshot is a success no-op; otherwise reinstate the snapshot as
a new history row and live row with `channel_id` cleared to the empty string,
`modified_by` the acting user, `update_at = now`, `delete_at = 0`, and
cascade undeletion to children. -/
def undeleteBoard (st : StoreState) (boardID modifiedBy : String) (now : Int) :
    Except StoreErr StoreState :=
  match getBoardHistory st boardID
      { beforeUpdateAt := 0, afterUpdateAt := 0, limit := 1, descending := true } with
  | [] => Except.ok st
  | board :: _ =>
      if board.deleteAt == 0 then
        Except.ok st
      else
        let row := { board with
          channelID := ""
          modifiedBy := modifiedBy
          updateAt := now
          deleteAt := 0 }
        Except.ok { st with
          boardsHistory := st.boardsHistory ++ [row]
          boards := st.boards ++ [row]
          childOps := st.childOps ++ [ChildOp.undeleteChildren board.id modifiedBy] }

/-- The `board_members` row for a `(boardID, userID)` pair, if any. -/
def findMemberRow (st : StoreState) (boardID userID : String) : Option MemberRow :=
  st.boardMembers.find? (fun r => r.boardID == boardID && r.userID == userID)

/-- Lift a stored `board_members` row to a `model.BoardMember`, joining in the
board's `minimum_role` (`COALESCE(B.minimum_role, '')` over a left join). -/
def memberOfRow (st : StoreState) (r : MemberRow) : BoardMember :=
  { boardID := r.boardID
    userID := r.userID
    roles := r.roles
    schemeAdmin := r.schemeAdmin
    schemeEditor := r.schemeEditor
    schemeCommenter := r.schemeCommenter
    schemeViewer := r.schemeViewer
    minimumRole := (match getBoard st r.boardID with
      | some b => b.minimumRole
      | none => "")
    synthetic := false }

/-- The synthetic editor-level membership computed for channel members. -/
def syntheticEditor (boardID userID : String) : BoardMember :=
  { boardID := boardID
    userID := userID
    roles := "editor"
    schemeAdmin := false
    schemeEditor := true
    schemeCommenter := false
    schemeViewer := false
    minimumRole := ""
    synthetic := true }

/-- The synthetic viewer-level membership computed for team members on open
template boards. -/
def syntheticViewer (boardID userID : String) : BoardMember :=
  { boardID := boardID
    userID := userID
    roles := "viewer"
    schemeAdmin := false
    schemeEditor := false
    schemeCommenter := false
    schemeViewer := true
    minimumRole := ""
    synthetic := true }

/-- Model of `getMemberForBoard` (the spec's `getEffectiveMember`): the explicit row if
present; otherwise the system user is NotFound immediately; then guests are
NotFound; then a channel-linked board yields a synthetic editor membership
exactly for channel members; then an open template board yields a synthetic
viewer membership exactly for team members; otherwise NotFound. -/
def getMemberForBoard (env : Env) (st : StoreState) (boardID userID : String) :
    Except StoreErr BoardMember :=
  match findMemberRow st boardID userID with
  | some r => Except.ok (memberOfRow st r)
  | none =>
      if userID == SystemUserID then
        Except.error (StoreErr.notFound userID)
      else
        match env.users userID with
        | none => Except.error (StoreErr.notFound userID)
        | some user =>
            if user.isGuest then
              Except.error (StoreErr.notFound "user is a guest")
            else
              match getBoard st boardID with
              | none => Except.error (StoreErr.notFound "boards")
              | some b =>
                  if b.channelID != "" then
                    if env.channelMemberAPI b.channelID userID then
                      Except.ok (syntheticEditor boardID userID)
                    else
                      Except.error (StoreErr.notFound
                        ("member BoardID=" ++ boardID ++ " UserID=" ++ userID))
                  else if b.type == BoardTypeOpen && b.isTemplate then
                    if env.teamMemberAPI b.teamID userID then
                      Except.ok (syntheticViewer boardID userID)
                    else
                      Except.error (StoreErr.notFound userID)
                  else
                    Except.error (StoreErr.notFound "member")

/-- The `board_members` upsert statement of `saveMember` as a row-list
transformation: on a `(board_id, user_id)` conflict only the four capability
flags are rewritten — never `roles` — and otherwise a new row is inserted
with `roles` hardcoded to the empty string. -/
def upsertMemberRows (rows : List MemberRow) (bm : BoardMember) : List MemberRow :=
  if rows.any (fun r => r.boardID == bm.boardID && r.userID == bm.userID) then
    rows.map (fun r =>
      if r.boardID == bm.boardID && r.userID == bm.userID then
        { r with
          schemeAdmin := bm.schemeAdmin
          schemeEditor := bm.schemeEditor
          schemeCommenter := bm.schemeCommenter
          schemeViewer := bm.schemeViewer }
      else r)
  else
    rows ++
      [{ boardID := bm.boardID
         userID := bm.userID
         roles := ""
         schemeAdmin := bm.schemeAdmin
         schemeEditor := bm.schemeEditor
         schemeCommenter := bm.schemeCommenter
         schemeViewer := bm.schemeViewer }]

/-- Model of `saveMember`: upsert of the `board_members` row — the insert hardcodes
`roles` to the empty string and the conflict clause rewrites only the four
capability flags — followed by a `"created"` history entry exactly when the
preceding `getMemberForBoard` found no membership at all (explicit or
synthetic). The value returned to the caller is the input member. -/
def saveMember (env : Env) (st : StoreState) (bm : BoardMember) :
    Except StoreErr (BoardMember × StoreState) :=
  let oldMember : Option BoardMember :=
    match getMemberForBoard env st bm.boardID bm.userID with
    | Except.ok m => some m
    | Except.error _ => none
  let st := { st with boardMembers := upsertMemberRows st.boardMembers bm }
  let st :=
    match oldMember with
    | none =>
        { st with membersHistory := st.membersHistory ++
            [{ boardID := bm.boardID, userID := bm.userID, action := "created" }] }
    | some _ => st
  Except.ok (bm, st)

/-- Model of `deleteMember`: delete the explicit row; append a `"deleted"` history
entry exactly when at least one row was removed. -/
def deleteMember (st : StoreState) (boardID userID : String) : StoreState :=
  let existed := st.boardMembers.any (fun r => r.boardID == boardID && r.userID == userID)
  let st := { st with boardMembers := st.boardMembers.filter (fun r =>
    !(r.boardID == boardID && r.userID == userID)) }
  if existed then
    { st with membersHistory := st.membersHistory ++
        [{ boardID := boardID, userID := userID, action := "deleted" }] }
  else
    st

/-- Go `model.BoardSearchField`. -/
inductive BoardSearchField where
  | title
  | propertyName
deriving Repr, DecidableEq

/-- The per-branch term filter of `searchBoardsForUser`: empty term matches
everything; property-name mode defers to the database's dialect-specific JSON
existence predicate; title mode splits the trimmed term on spaces and
requires every word to occur case-insensitively in the title. -/
def termFilter (env : Env) (term : String) (searchField : BoardSearchField)
    (b : Board) : Bool :=
  if term == "" then true
  else match searchField with
    | BoardSearchField.propertyName => env.propertyMatch term b
    | BoardSearchField.title =>
        (term.trim.splitOn " ").all (fun word =>
          decide (List.IsInfix word.toLower.toList b.title.toLower.toList))

/-- The explicit-membership branch of `searchBoardsForUser`: non-template
boards joined to a `board_members` row of the user. -/
def boardMembersBranch (env : Env) (st : StoreState) (term : String)
    (searchField : BoardSearchField) (userID : String) : List Board :=
  st.boards.filter (fun b =>
    !b.isTemplate &&
    st.boardMembers.any (fun r => r.boardID == b.id && r.userID == userID) &&
    termFilter env term searchField b)

/-- The team-wide open-boards branch of `searchBoardsForUser`: non-template
open boards joined to a live `TeamMembers` row of the user. -/
def teamMembersBranch (env : Env) (st : StoreState) (term : String)
    (searchField : BoardSearchField) (userID : String) : List Board :=
  st.boards.filter (fun b =>
    !b.isTemplate && b.type == BoardTypeOpen &&
    env.teamRows.any (fun t => t.1 == b.teamID && t.2.1 == userID && t.2.2 == 0) &&
    termFilter env term searchField b)

/-- The channel-membership branch of `searchBoardsForUser`: non-template
boards joined to a `ChannelMembers` row of the user on the linked channel. -/
def channelMembersBranch (env : Env) (st : StoreState) (term : String)
    (searchField : BoardSearchField) (userID : String) : List Board :=
  st.boards.filter (fun b =>
    !b.isTemplate &&
    env.channelRows.any (fun c => c.1 == b.channelID && c.2 == userID) &&
    termFilter env term searchField b)

/-- Model of `searchBoardsForUser`: the explicit-membership branch, unioned — for
non-guests — with the channel-membership branch and, when
`includePublicBoards`, the team-wide branch; for guests, unioned only with
the team-wide branch when `includePublicBoards`. (The SQL `UNION`'s row
deduplication is not modelled; the theorems below are about membership.) -/
def searchBoardsForUser (env : Env) (st : StoreState) (term : String)
    (searchField : BoardSearchField) (userID : String)
    (includePublicBoards : Bool) : Except StoreErr (List Board) :=
  match env.users userID with
  | none => Except.error (StoreErr.notFound userID)
  | some user =>
      let base := boardMembersBranch env st term searchField userID
      if !user.isGuest then
        let withChannel := base ++ channelMembersBranch env st term searchField userID
        if includePublicBoards then
          Except.ok (withChannel ++ teamMembersBranch env st term searchField userID)
        else
          Except.ok withChannel
      else if includePublicBoards then
        Except.ok (base ++ teamMembersBranch env st term searchField userID)
      else
        Except.ok base

/-- The amended description of a guest's `searchBoardsForUser` results,
written from the corrected spec sentence: the explicit-membership branch,
together with the team-wide open-boards branch exactly when
`includePublicBoards` is set; the channel-membership branch never contributes
for guests. -/
def guestSearchBoardsSpec (env : Env) (st : StoreState) (term : String)
    (searchField : BoardSearchField) (userID : String)
    (includePublicBoards : Bool) : List Board :=
  boardMembersBranch env st term searchField userID ++
    (if includePublicBoards then teamMembersBranch env st term searchField userID else [])

/-- The amended claim's resolution order for the effective-membership lookup
of a `(board, user)` pair with no explicit row, written from the corrected
spec sentences: the reserved system user id is NotFound immediately; guests
are NotFound; a board with a linked channel yields a synthetic editor-level
membership exactly when the user belongs to that channel; otherwise an open
template board yields a synthetic viewer-level membership exactly when the
user belongs to the board's team; otherwise NotFound. -/
def getEffectiveMemberNoRowSpec (env : Env) (st : StoreState)
    (boardID userID : String) : Except StoreErr BoardMember :=
  if userID = SystemUserID then
    Except.error (StoreErr.notFound userID)
  else
    match env.users userID with
    | none => Except.error (StoreErr.notFound userID)
    | some user =>
        if user.isGuest = true then
          Except.error (StoreErr.notFound "user is a guest")
        else
          match getBoard st boardID with
          | none => Except.error (StoreErr.notFound "boards")
          | some b =>
              if b.channelID ≠ "" then
                if env.channelMemberAPI b.channelID userID = true then
                  Except.ok (syntheticEditor boardID userID)
                else
                  Except.error (StoreErr.notFound
                    ("member BoardID=" ++ boardID ++ " UserID=" ++ userID))
              else if b.type = BoardTypeOpen ∧ b.isTemplate = true then
                if env.teamMemberAPI b.teamID userID = true then
                  Except.ok (syntheticViewer boardID userID)
                else
                  Except.error (StoreErr.notFound userID)
              else
                Except.error (StoreErr.notFound "member")

/-- A board with neutral field values, the base of the concrete fixtures
below. -/
def baseBoard : Board :=
  { id := ""
    teamID := ""
    channelID := ""
    createdBy := ""
    modifiedBy := ""
    type := BoardTypePrivate
    minimumRole := ""
    title := ""
    description := ""
    icon := ""
    showDescription := false
    isTemplate := false
    templateVersion := 0
    properties := some []
    cardProperties := []
    createAt := 0
    updateAt := 0
    deleteAt := 0 }

/-- A store with all tables empty. -/
def emptyState : StoreState :=
  { boards := [], boardsHistory := [], boardMembers := [], membersHistory := [], childOps := [] }

/-- Concrete collaborator environment for the fixtures: `guest1` is a guest,
`user1` a regular member, and the reserved system user id resolves to a
regular non-guest user; `user1`, `guest1` (and, through the plugin API, the
system user) belong to channel `chan1`, and `user1` and `guest1` have live
`TeamMembers` rows in `team1`. -/
def testEnv : Env :=
  { users := fun u =>
      if u == "guest1" then some { isGuest := true }
      else if u == "user1" then some { isGuest := false }
      else if u == SystemUserID then some { isGuest := false }
      else none
    channelMemberAPI := fun c u =>
      c == "chan1" && (u == "user1" || u == "guest1" || u == SystemUserID)
    teamMemberAPI := fun t u => t == "team1" && (u == "user1" || u == "guest1")
    channelRows := [("chan1", "guest1"), ("chan1", "user1")]
    teamRows := [("team1", "guest1", 0), ("team1", "user1", 0)]
    sha256hex := fun s => "sha256:" ++ s
    propertyMatch := fun _ _ => false }

/-- Fixture: an open, non-template board of `team1` linked to channel
`chan9`, of which neither test user is a member. -/
def boardTeamOpen : Board :=
  { baseBoard with
    id := "b1", teamID := "team1", type := BoardTypeOpen, channelID := "chan9",
    title := "roadmap" }

/-- Fixture store holding only `boardTeamOpen`. -/
def stTeamOpen : StoreState := { emptyState with boards := [boardTeamOpen] }

/-- Fixture: a private board of `team9` linked to channel `chan1`, of which
both test users are channel members. -/
def boardChanLinked : Board :=
  { baseBoard with id := "b5", teamID := "team9", channelID := "chan1" }

/-- Fixture store holding only `boardChanLinked`. -/
def stChanLinked : StoreState := { emptyState with boards := [boardChanLinked] }

/-- Fixture: a live board of `team1` linked to channel `chan1`, created by
`alice`. -/
def boardLive : Board :=
  { baseBoard with
    id := "b2", teamID := "team1", channelID := "chan1", createdBy := "alice",
    title := "t2" }

/-- Fixture store holding only `boardLive`. -/
def stLive : StoreState := { emptyState with boards := [boardLive] }

/-- The store reached from `stLive` by deleting `boardLive` as `alice` at
time 100. -/
def stLiveDeleted : StoreState :=
  (deleteBoardAndChildren stLive "b2" "alice" 100 false).toOption.getD emptyState

/-- The store reached from `stLiveDeleted` by undeleting board `b2` as `bob`
at time 200, i.e. after a full delete/undelete round trip. -/
def stLiveRoundTrip : StoreState :=
  (undeleteBoard stLiveDeleted "b2" "bob" 200).toOption.getD emptyState

/-- The channel id of board `b2` after the delete/undelete round trip. -/
def roundTripChannelID : Option String :=
  (getBoard stLiveRoundTrip "b2").map Board.channelID

/-- Fixture: the stored board `b3` created by `alice` in `team1`. -/
def boardStoredB3 : Board :=
  { baseBoard with id := "b3", createdBy := "alice", teamID := "team1" }

/-- Fixture: an input for `insertOrUpdate` carrying the id `b3` but a
different `createdBy` and `teamID` than the stored row. -/
def boardInputB3 : Board :=
  { baseBoard with id := "b3", createdBy := "bob", teamID := "team2" }

/-- Fixture store holding only `boardStoredB3`. -/
def stStoredB3 : StoreState := { emptyState with boards := [boardStoredB3] }

/-- The `insertOrUpdate` of `boardInputB3` over `stStoredB3` (the update
branch, with mismatched `createdBy`/`teamID`). -/
def updateRunB3 : Except StoreErr (Board × StoreState) :=
  insertBoard testEnv stStoredB3 boardInputB3 "mod" 300

/-- The `createdBy` fields of the newest history snapshot of `b3` after
`updateRunB3`. -/
def updateRunB3HistoryCreatedBy : Option (List String) :=
  updateRunB3.toOption.map (fun p =>
    (getBoardHistory p.2 "b3"
      { beforeUpdateAt := 0, afterUpdateAt := 0, limit := 1, descending := true }).map
      Board.createdBy)

/-- The `createdBy` field of the live `b3` row after `updateRunB3`. -/
def updateRunB3LiveCreatedBy : Option String :=
  updateRunB3.toOption.bind (fun p => (getBoard p.2 "b3").map Board.createdBy)

/-- Fixture: a membership input of `user1` on the channel-linked board `b5`,
with a nonempty `roles` label and admin/editor flags. -/
def bmUser1B5 : BoardMember :=
  { boardID := "b5", userID := "user1", roles := "custom", schemeAdmin := true,
    schemeEditor := true, schemeCommenter := false, schemeViewer := false,
    minimumRole := "", synthetic := false }

/-- The membership-history table after the first explicit save of `user1` on
the channel-linked board `b5` (on which `user1` already has a synthetic
membership). -/
def firstSaveHistoryB5 : Option (List MemberHistoryRow) :=
  (saveMember testEnv stChanLinked bmUser1B5).toOption.map (fun p => p.2.membersHistory)

/-- Fixture: a global-team template board whose `properties` map is nil. -/
def boardNilTemplate : Board :=
  { baseBoard with
    id := "b8", teamID := GlobalTeamID, isTemplate := true, title := "Welcome",
    properties := none }

/-- Fixture: the global-team template board `b8` with a defined (non-nil)
properties map. -/
def boardTrackedTemplate : Board :=
  { boardNilTemplate with properties := some [("a", "b")] }

/-- Claim C10: `getMemberForBoard` invoked for the reserved system user id
with no explicit membership row returns NotFound immediately. The result is
the same for every collaborator environment and every store, which is the
precise sense in which no user, channel or team collaborator is consulted
and no synthetic membership is computed. -/
theorem getMemberForBoard_systemUser_notFound (env : Env) (st : StoreState)
    (boardID : String) (h : findMemberRow st boardID SystemUserID = none) :
    getMemberForBoard env st boardID SystemUserID =
      Except.error (StoreErr.notFound SystemUserID) := by
  unfold getMemberForBoard
  rw [h]
  simp

/-- Witness for C10: the system user with no explicit row on board `b5`,
which is channel-linked and whose channel the system user belongs to via the
plugin API, is still NotFound. -/
theorem getMemberForBoard_systemUser_notFound_witness :
    findMemberRow stChanLinked "b5" SystemUserID = none ∧
    getMemberForBoard testEnv stChanLinked "b5" SystemUserID =
      Except.error (StoreErr.notFound SystemUserID) :=
  ⟨rfl, getMemberForBoard_systemUser_notFound testEnv stChanLinked "b5" rfl⟩

/-- Claim C4: when a board id has no history snapshots, or its newest history
snapshot has `deleteAt = 0`, `undeleteBoard` returns success and the state —
the boards table, the history table, the members tables and the children
trace — is returned unchanged. -/
theorem undeleteBoard_missing_or_live_noop (st : StoreState) (boardID u : String)
    (now : Int)
    (h : (getBoardHistory st boardID
        { beforeUpdateAt := 0, afterUpdateAt := 0, limit := 1,
          descending := true }).all (fun b => b.deleteAt == 0) = true) :
    undeleteBoard st boardID u now = Except.ok st := by
  unfold undeleteBoard
  cases hl : getBoardHistory st boardID
      { beforeUpdateAt := 0, afterUpdateAt := 0, limit := 1, descending := true } with
  | nil => rfl
  | cons b rest =>
      rw [hl] at h
      simp only [List.all_cons, Bool.and_eq_true] at h
      simp [h.1]

/-- Witness for C4: undeleting board `b2` in a store whose only history
snapshot of `b2` is live (`deleteAt = 0`) succeeds and changes nothing; the
hypothesis is discharged on that concrete store. -/
theorem undeleteBoard_missing_or_live_noop_witness :
    (getBoardHistory { emptyState with boardsHistory := [boardLive] } "b2"
        { beforeUpdateAt := 0, afterUpdateAt := 0, limit := 1,
          descending := true }).all (fun b => b.deleteAt == 0) = true ∧
    undeleteBoard { emptyState with boardsHistory := [boardLive] } "b2" "u" 77 =
      Except.ok { emptyState with boardsHistory := [boardLive] } :=
  ⟨by decide, undeleteBoard_missing_or_live_noop _ "b2" "u" 77 (by decide)⟩

/-- Counterexample to claim C1 as stated: `guest1` is a guest with no
explicit membership row on board `b1` and no `ChannelMembers` row on its
linked channel `chan9`, yet with `includePublicBoards = true` the board is
returned — it reaches the guest through the team-wide open-boards branch,
which the claim says is excluded for guests. -/
theorem searchBoardsForUser_guest_counterexample :
    (testEnv.users "guest1").map User.isGuest = some true ∧
    findMemberRow stTeamOpen "b1" "guest1" = none ∧
    testEnv.channelRows.any
      (fun c => c.1 == boardTeamOpen.channelID && c.2 == "guest1") = false ∧
    searchBoardsForUser testEnv stTeamOpen "" BoardSearchField.title "guest1" true =
      Except.ok [boardTeamOpen] :=
  ⟨rfl, rfl, rfl, rfl⟩

/-- Claim C1, amended: for every guest user, `searchBoardsForUser` excludes
the channel-membership branch from the union; the team-wide open-boards
branch is included exactly when `includePublicBoards` is set, so a board may
appear in a guest's results only through the explicit-membership branch or,
when `includePublicBoards`, the team-wide open-boards branch. -/
theorem searchBoardsForUser_guest (env : Env) (st : StoreState) (term : String)
    (searchField : BoardSearchField) (userID : String)
    (includePublicBoards : Bool) (u : User)
    (hu : env.users userID = some u) (hg : u.isGuest = true) :
    searchBoardsForUser env st term searchField userID includePublicBoards =
      Except.ok
        (guestSearchBoardsSpec env st term searchField userID includePublicBoards) := by
  unfold searchBoardsForUser guestSearchBoardsSpec
  rw [hu]
  cases includePublicBoards <;> simp [hg]

/-- Witness for C1 (amended): the guest `guest1` with `includePublicBoards`
set sees exactly the spec-side guest result set on the `stTeamOpen` store. -/
theorem searchBoardsForUser_guest_witness :
    testEnv.users "guest1" = some { isGuest := true } ∧
    User.isGuest { isGuest := true } = true ∧
    searchBoardsForUser testEnv stTeamOpen "" BoardSearchField.title "guest1" true =
      Except.ok
        (guestSearchBoardsSpec testEnv stTeamOpen "" BoardSearchField.title "guest1" true) :=
  ⟨rfl, rfl,
    searchBoardsForUser_guest testEnv stTeamOpen "" BoardSearchField.title "guest1" true
      { isGuest := true } rfl rfl⟩

/-- Counterexample to claim C5 as stated: the reserved system user id has no
explicit row on the channel-linked board `b5`, resolves to a non-guest user,
and belongs to the linked channel `chan1`, so the claim's resolution order
demands a synthetic editor-level membership — but `getMemberForBoard`
returns NotFound immediately for the system user id. -/
theorem getMemberForBoard_spec_counterexample :
    findMemberRow stChanLinked "b5" SystemUserID = none ∧
    testEnv.users SystemUserID = some { isGuest := false } ∧
    (getBoard stChanLinked "b5").map Board.channelID = some "chan1" ∧
    testEnv.channelMemberAPI "chan1" SystemUserID = true ∧
    getMemberForBoard testEnv stChanLinked "b5" SystemUserID =
      Except.error (StoreErr.notFound SystemUserID) :=
  ⟨rfl, rfl, rfl, rfl, rfl⟩

/-- Claim C5, amended: for a `(board, user)` pair with no explicit membership
row, `getMemberForBoard` resolves in this order — the reserved system user id
is NotFound immediately; a guest is NotFound; a board with a linked channel
yields the synthetic editor-level membership iff the user belongs to that
channel; otherwise an open template board yields the synthetic viewer-level
membership iff the user belongs to the board's team; otherwise NotFound.
Every membership produced without a stored row carries `synthetic = true`
(and, the lookup being a pure function of the store, none is persisted). -/
theorem getMemberForBoard_noRow_spec (env : Env) (st : StoreState)
    (boardID userID : String) (h : findMemberRow st boardID userID = none) :
    getMemberForBoard env st boardID userID =
      getEffectiveMemberNoRowSpec env st boardID userID ∧
    ∀ m, getMemberForBoard env st boardID userID = Except.ok m → m.synthetic = true := by
  constructor
  · unfold getMemberForBoard getEffectiveMemberNoRowSpec
    rw [h]
    by_cases hs : userID = SystemUserID
    · simp [hs]
    · cases hu : env.users userID with
      | none => simp [hs, hu]
      | some u =>
          cases hg : u.isGuest
          · cases hb : getBoard st boardID with
            | none => simp [hs, hu, hg, hb]
            | some b => simp [hs, hu, hg, hb]
          · simp [hs, hu, hg]
  · intro m hm
    unfold getMemberForBoard at hm
    rw [h] at hm
    by_cases hs : userID = SystemUserID
    · simp [hs] at hm
    · cases hu : env.users userID with
      | none => simp [hs, hu] at hm
      | some u =>
          cases hg : u.isGuest
          · cases hb : getBoard st boardID with
            | none => simp [hs, hu, hg, hb] at hm
            | some b =>
                simp only [hs, hu, hg, hb, beq_iff_eq, if_neg, if_false] at hm
                split_ifs at hm <;> (try simp at hm) <;> (subst hm; rfl)
          · simp [hs, hu, hg] at hm

/-- Witness for C5 (amended): the non-guest `user1` with no explicit row on
the channel-linked board `b5` resolves exactly as the amended specification
says (to the synthetic editor membership, since `user1` belongs to
`chan1`). -/
theorem getMemberForBoard_noRow_spec_witness :
    findMemberRow stChanLinked "b5" "user1" = none ∧
    getMemberForBoard testEnv stChanLinked "b5" "user1" =
      getEffectiveMemberNoRowSpec testEnv stChanLinked "b5" "user1" ∧
    getEffectiveMemberNoRowSpec testEnv stChanLinked "b5" "user1" =
      Except.ok (syntheticEditor "b5" "user1") :=
  ⟨rfl, (getMemberForBoard_noRow_spec testEnv stChanLinked "b5" "user1" rfl).1, rfl⟩

/-- Counterexample to claim C2 as stated: board `b2` is live with linked
channel `chan1`; after delete (by `alice` at 100) and undelete (by `bob` at
200) the reinstated live row's `channelID` is the empty string, not the
pre-delete value — so the round trip does not restore every field other
than `modifiedBy`/`updateAt`/`deleteAt`. -/
theorem delete_undelete_channel_counterexample :
    boardLive.channelID = "chan1" ∧
    deleteBoardAndChildren stLive "b2" "alice" 100 false = Except.ok stLiveDeleted ∧
    undeleteBoard stLiveDeleted "b2" "bob" 200 = Except.ok stLiveRoundTrip ∧
    roundTripChannelID = some "" :=
  ⟨rfl, rfl, rfl, rfl⟩

/-- Claim C2, amended: for every live board, delete followed by undelete
reinstates a live row (and mirrors it into history, cascading undeletion to
children) equal to the pre-delete row in every field except `modifiedBy` and
`updateAt` (which reflect the undelete actor and time), `deleteAt` (back to
0) — and `channelID`, which the undelete resets to the empty string. -/
theorem delete_undelete_restores (st : StoreState) (boardID u1 u2 : String)
    (now1 now2 : Int) (kc : Bool) (b : Board) (st1 : StoreState)
    (hb : getBoard st boardID = some b) (hnow : ¬now1 = 0)
    (hdel : deleteBoardAndChildren st boardID u1 now1 kc = Except.ok st1) :
    undeleteBoard st1 boardID u2 now2 = Except.ok
      { st1 with
        boardsHistory := st1.boardsHistory ++
          [{ b with channelID := "", modifiedBy := u2, updateAt := now2, deleteAt := 0 }]
        boards := st1.boards ++
          [{ b with channelID := "", modifiedBy := u2, updateAt := now2, deleteAt := 0 }]
        childOps := st1.childOps ++ [ChildOp.undeleteChildren b.id u2] } := by
  have hid : b.id = boardID := by
    have hp := List.find?_some hb
    simpa using hp
  unfold deleteBoardAndChildren at hdel
  rw [hb] at hdel
  split at hdel
  case h_1 x heq => exact Except.noConfusion hdel
  case h_2 x board heq =>
    injection heq with hbb
    subst hbb
    split at hdel <;>
      (simp only [Except.ok.injEq] at hdel
       subst hdel
       unfold undeleteBoard getBoardHistory
       simp [List.filter_append, hid, hnow])

/-- Witness for C2 (amended): the concrete delete/undelete round trip of
board `b2` reinstates exactly the row predicted by the amended claim. -/
theorem delete_undelete_restores_witness :
    getBoard stLive "b2" = some boardLive ∧
    ¬(100 : Int) = 0 ∧
    deleteBoardAndChildren stLive "b2" "alice" 100 false = Except.ok stLiveDeleted ∧
    undeleteBoard stLiveDeleted "b2" "bob" 200 = Except.ok
      { stLiveDeleted with
        boardsHistory := stLiveDeleted.boardsHistory ++
          [{ boardLive with
              channelID := "", modifiedBy := "bob", updateAt := 200, deleteAt := 0 }]
        boards := stLiveDeleted.boards ++
          [{ boardLive with
              channelID := "", modifiedBy := "bob", updateAt := 200, deleteAt := 0 }]
        childOps := stLiveDeleted.childOps ++
          [ChildOp.undeleteChildren boardLive.id "bob"] } :=
  ⟨rfl, by decide, rfl,
    delete_undelete_restores stLive "b2" "alice" "bob" 100 200 false boardLive
      stLiveDeleted rfl (by decide) rfl⟩

/-- Helper: the tracking-id phase of `insertBoard` never changes the board
id. -/
theorem trackingTemplateStep_id (env : Env) (board b1 : Board)
    (h : trackingTemplateStep env board = Except.ok b1) : b1.id = board.id := by
  unfold trackingTemplateStep at h
  split_ifs at h
  · cases hp : board.properties with
    | none => rw [hp] at h; exact Except.noConfusion h
    | some m => rw [hp] at h; injection h with h1; subst h1; rfl
  · injection h with h1; subst h1; rfl

/-- Helper: `find?` by board id commutes with mapping an id-preserving
function over the rows. -/
theorem find?_map_id_preserving (l : List Board) (g : Board → Board)
    (hg : ∀ x, (g x).id = x.id) (i : String) :
    (l.map g).find? (fun b => b.id == i) = (l.find? (fun b => b.id == i)).map g := by
  rw [List.find?_map]
  have hc : ((fun b : Board => b.id == i) ∘ g) = fun b : Board => b.id == i := by
    funext x
    simp [Function.comp, hg x]
  rw [hc]

/-- Helper: the upsert-and-mirror phase of `insertBoard`, written out by
cases on whether a live row with the input's id exists. -/
theorem insertBoardCore_eq (st : StoreState) (b1 : Board) (userID : String) (now : Int) :
    insertBoardCore st b1 userID now =
      match getBoard st b1.id with
      | some _ =>
          ({ b1 with modifiedBy := userID, updateAt := now },
           { st with
             boards := st.boards.map (fun ex =>
               if ex.id == b1.id then
                 applyBoardUpdate { b1 with modifiedBy := userID, updateAt := now } ex
               else ex)
             boardsHistory := st.boardsHistory ++
               [{ b1 with modifiedBy := userID, updateAt := now }] })
      | none =>
          ({ b1 with
              modifiedBy := userID, updateAt := now, createdBy := userID, createAt := now },
           { st with
             boards := st.boards ++
               [{ b1 with
                   modifiedBy := userID, updateAt := now, createdBy := userID,
                   createAt := now }]
             boardsHistory := st.boardsHistory ++
               [{ b1 with
                   modifiedBy := userID, updateAt := now, createdBy := userID,
                   createAt := now }] }) := by
  unfold insertBoardCore
  cases getBoard st b1.id <;> rfl

/-- Helper: when the history table ends in a row, the newest snapshot
returned by `getBoardHistory` with limit 1, descending, is that row. -/
theorem getBoardHistory_newest (st2 : StoreState) (rows : List Board) (rb : Board)
    (hh : st2.boardsHistory = rows ++ [rb]) :
    getBoardHistory st2 rb.id
      { beforeUpdateAt := 0, afterUpdateAt := 0, limit := 1, descending := true } = [rb] := by
  unfold getBoardHistory
  rw [hh]
  simp [List.filter_append]

/-- Counterexample to claim C3 as stated: the stored board `b3` was created
by `alice` in `team1`; an `insertOrUpdate` of an input carrying id `b3` but
`createdBy = "bob"` succeeds, and afterwards the newest history snapshot
records `createdBy = "bob"` while the live row still has
`createdBy = "alice"` — the snapshot is not field-equal to the live row. -/
theorem insertBoard_history_counterexample :
    (getBoard stStoredB3 "b3").map Board.createdBy = some "alice" ∧
    boardInputB3.createdBy = "bob" ∧
    updateRunB3HistoryCreatedBy = some ["bob"] ∧
    updateRunB3LiveCreatedBy = some "alice" :=
  ⟨rfl, rfl, rfl, rfl⟩

/-- Claim C3, amended: every successful `insertOrUpdate` appends exactly one
history snapshot — the returned row — and the newest history snapshot
(`getHistory` with limit 1, descending) is that row. When the board id was
not yet present the snapshot is field-equal to the resulting live row; in
the update branch the live row agrees with the snapshot on every column
except `teamID`, `createdBy` and `createAt`, which keep the previously
stored row's values while the snapshot records the input's. -/
theorem insertBoard_history_mirror (env : Env) (st : StoreState) (board : Board)
    (userID : String) (now : Int) (rb : Board) (st' : StoreState)
    (h : insertBoard env st board userID now = Except.ok (rb, st')) :
    st'.boardsHistory = st.boardsHistory ++ [rb] ∧
    getBoardHistory st' rb.id
      { beforeUpdateAt := 0, afterUpdateAt := 0, limit := 1, descending := true } = [rb] ∧
    (getBoard st board.id = none → getBoard st' rb.id = some rb) ∧
    (∀ ex0, getBoard st board.id = some ex0 →
      getBoard st' rb.id = some (applyBoardUpdate rb ex0)) := by
  unfold insertBoard at h
  cases ht : trackingTemplateStep env board with
  | error e => rw [ht] at h; exact Except.noConfusion h
  | ok b1 =>
      have hid : b1.id = board.id := trackingTemplateStep_id env board b1 ht
      rw [ht] at h
      simp only [Except.map] at h
      rw [insertBoardCore_eq] at h
      cases hex : getBoard st b1.id with
      | none =>
          rw [hex] at h
          simp only [Except.ok.injEq, Prod.mk.injEq] at h
          obtain ⟨hrb, hst⟩ := h
          subst hrb
          subst hst
          refine ⟨rfl, getBoardHistory_newest _ st.boardsHistory _ rfl, ?_, ?_⟩
          · intro _
            unfold getBoard
            rw [List.find?_append]
            have hnone : st.boards.find?
                (fun b => b.id == ({ b1 with
                  modifiedBy := userID, updateAt := now, createdBy := userID,
                  createAt := now } : Board).id) = none := hex
            rw [hnone]
            simp
          · intro ex0 hex0
            rw [← hid] at hex0
            rw [hex0] at hex
            exact Option.noConfusion hex
      | some ex =>
          rw [hex] at h
          simp only [Except.ok.injEq, Prod.mk.injEq] at h
          obtain ⟨hrb, hst⟩ := h
          subst hrb
          subst hst
          refine ⟨rfl, getBoardHistory_newest _ st.boardsHistory _ rfl, ?_, ?_⟩
          · intro hnone
            rw [← hid] at hnone
            rw [hnone] at hex
            exact Option.noConfusion hex
          · intro ex0 hex0
            rw [← hid] at hex0
            unfold getBoard
            rw [find?_map_id_preserving]
            · unfold getBoard at hex0
              rw [show ({ b1 with modifiedBy := userID, updateAt := now } : Board).id
                  = b1.id from rfl]
              rw [hex0]
              have hpe : ex0.id = b1.id := by simpa using List.find?_some hex0
              simp [hpe]
            · intro x
              split <;> rfl

/-- Witness for C3 (amended): a fresh insert of `boardInputB3` into the empty
store appends exactly one history row, equal to both the returned row and
the live row. -/
theorem insertBoard_history_mirror_witness :
    insertBoard testEnv emptyState boardInputB3 "mod" 300 = Except.ok
      ({ boardInputB3 with
          modifiedBy := "mod", updateAt := 300, createdBy := "mod", createAt := 300 },
       { emptyState with
         boards := [{ boardInputB3 with
            modifiedBy := "mod", updateAt := 300, createdBy := "mod", createAt := 300 }]
         boardsHistory := [{ boardInputB3 with
            modifiedBy := "mod", updateAt := 300, createdBy := "mod",
            createAt := 300 }] }) ∧
    ({ emptyState with
        boards := [{ boardInputB3 with
          modifiedBy := "mod", updateAt := 300, createdBy := "mod", createAt := 300 }]
        boardsHistory := [{ boardInputB3 with
          modifiedBy := "mod", updateAt := 300, createdBy := "mod",
          createAt := 300 }] } : StoreState).boardsHistory =
      emptyState.boardsHistory ++ [{ boardInputB3 with
        modifiedBy := "mod", updateAt := 300, createdBy := "mod", createAt := 300 }] ∧
    getBoard
      { emptyState with
        boards := [{ boardInputB3 with
          modifiedBy := "mod", updateAt := 300, createdBy := "mod", createAt := 300 }]
        boardsHistory := [{ boardInputB3 with
          modifiedBy := "mod", updateAt := 300, createdBy := "mod", createAt := 300 }] }
      ({ boardInputB3 with
          modifiedBy := "mod", updateAt := 300, createdBy := "mod",
          createAt := 300 } : Board).id =
      some { boardInputB3 with
        modifiedBy := "mod", updateAt := 300, createdBy := "mod", createAt := 300 } :=
  ⟨rfl,
    (insertBoard_history_mirror testEnv emptyState boardInputB3 "mod" 300 _ _ rfl).1,
    (insertBoard_history_mirror testEnv emptyState boardInputB3 "mod" 300 _ _ rfl).2.2.1 rfl⟩

/-- Claim C7: `deleteMember` removes the explicit membership row and appends
exactly one `board_members_history` row with action `"deleted"` iff a row was
actually removed; when no row existed it writes zero history rows, and a
repeated call changes nothing (idempotence). -/
theorem deleteMember_spec (st : StoreState) (boardID userID : String) :
    (deleteMember st boardID userID).boardMembers =
      st.boardMembers.filter (fun r => !(r.boardID == boardID && r.userID == userID)) ∧
    (deleteMember st boardID userID).membersHistory =
      st.membersHistory ++
        (if st.boardMembers.any (fun r => r.boardID == boardID && r.userID == userID)
          then [{ boardID := boardID, userID := userID, action := "deleted" }] else []) ∧
    deleteMember (deleteMember st boardID userID) boardID userID =
      deleteMember st boardID userID := by
  unfold deleteMember
  refine ⟨?_, ?_, ?_⟩
  · by_cases hex : st.boardMembers.any (fun r => r.boardID == boardID && r.userID == userID) <;>
      simp [hex]
  · by_cases hex : st.boardMembers.any (fun r => r.boardID == boardID && r.userID == userID) <;>
      simp [hex]
  · by_cases hex : st.boardMembers.any (fun r => r.boardID == boardID && r.userID == userID) <;>
      (simp [hex, List.any_filter, List.filter_filter]
       try tauto)

/-- Claim C8: for a template board of the reserved global team, `insertBoard`
first writes the key `trackingTemplateId` — the hex SHA-256 digest of the
title, taken from the external hash collaborator — into the board's
properties map, before the properties are marshalled; this write faults
(`nilMapPanic`) exactly when the properties map is nil, and with a defined
map the operation proceeds on the map extended with the tracking key, so the
fault branch is unreachable. -/
theorem insertBoard_trackingTemplateId (env : Env) (st : StoreState) (board : Board)
    (userID : String) (now : Int)
    (ht : board.isTemplate = true) (hg : board.teamID = GlobalTeamID) :
    (board.properties = none →
      insertBoard env st board userID now = Except.error StoreErr.nilMapPanic) ∧
    (∀ m, board.properties = some m →
      insertBoard env st board userID now =
        Except.ok (insertBoardCore st
          { board with
            properties := some (setProp m "trackingTemplateId" (env.sha256hex board.title)) }
          userID now)) := by
  constructor
  · intro hp
    unfold insertBoard trackingTemplateStep
    rw [ht, hg, hp]
    simp [Except.map]
  · intro m hp
    unfold insertBoard trackingTemplateStep
    rw [ht, hg, hp]
    simp [Except.map]

/-- Witness for C8: on the concrete global-team template `b8`, a nil
properties map faults with `nilMapPanic`, and a defined map succeeds with the
tracking key added. -/
theorem insertBoard_trackingTemplateId_witness :
    boardNilTemplate.isTemplate = true ∧
    boardNilTemplate.teamID = GlobalTeamID ∧
    boardNilTemplate.properties = none ∧
    insertBoard testEnv emptyState boardNilTemplate "u" 10 =
      Except.error StoreErr.nilMapPanic ∧
    boardTrackedTemplate.properties = some [("a", "b")] ∧
    insertBoard testEnv emptyState boardTrackedTemplate "u" 10 =
      Except.ok (insertBoardCore emptyState
        { boardTrackedTemplate with
          properties := some (setProp [("a", "b")] "trackingTemplateId"
            (testEnv.sha256hex boardTrackedTemplate.title)) }
        "u" 10) :=
  ⟨rfl, rfl, rfl,
    (insertBoard_trackingTemplateId testEnv emptyState boardNilTemplate "u" 10 rfl rfl).1 rfl,
    rfl,
    (insertBoard_trackingTemplateId testEnv emptyState boardTrackedTemplate "u" 10
      rfl rfl).2 [("a", "b")] rfl⟩

/-- Helper: `find?` by the membership key commutes with mapping a
key-preserving function over the rows. -/
theorem find?_map_member_preserving (l : List MemberRow) (g : MemberRow → MemberRow)
    (hg : ∀ x, (g x).boardID = x.boardID ∧ (g x).userID = x.userID) (bid uid : String) :
    (l.map g).find? (fun r => r.boardID == bid && r.userID == uid) =
      (l.find? (fun r => r.boardID == bid && r.userID == uid)).map g := by
  rw [List.find?_map]
  have hc : ((fun r : MemberRow => r.boardID == bid && r.userID == uid) ∘ g) =
      fun r : MemberRow => r.boardID == bid && r.userID == uid := by
    funext x
    simp [Function.comp, (hg x).1, (hg x).2]
  rw [hc]

/-- Helper: after the `board_members` upsert the stored row for the member's
key carries the member's four capability flags, and its `roles` column is the
previously stored row's `roles` on conflict and the empty string on a fresh
insert. -/
theorem upsertMemberRows_find? (rows : List MemberRow) (bm : BoardMember) :
    (upsertMemberRows rows bm).find?
        (fun r => r.boardID == bm.boardID && r.userID == bm.userID) =
      some { boardID := bm.boardID
             userID := bm.userID
             roles := (rows.find?
               (fun r => r.boardID == bm.boardID && r.userID == bm.userID)).elim ""
               MemberRow.roles
             schemeAdmin := bm.schemeAdmin
             schemeEditor := bm.schemeEditor
             schemeCommenter := bm.schemeCommenter
             schemeViewer := bm.schemeViewer } := by
  unfold upsertMemberRows
  by_cases hex : rows.any (fun r => r.boardID == bm.boardID && r.userID == bm.userID)
  · rw [if_pos hex]
    rw [find?_map_member_preserving]
    · have hsome : (rows.find?
          (fun r => r.boardID == bm.boardID && r.userID == bm.userID)).isSome := by
        rw [List.find?_isSome]
        simpa using List.any_eq_true.mp hex
      obtain ⟨r0, hr0⟩ := Option.isSome_iff_exists.mp hsome
      rw [hr0]
      have hp := List.find?_some hr0
      simp only [Bool.and_eq_true, beq_iff_eq] at hp
      simp [Option.map, hp.1, hp.2, Option.elim]
    · intro x
      constructor <;> (split <;> rfl)
  · rw [if_neg hex]
    rw [List.find?_append]
    have hnone : rows.find?
        (fun r => r.boardID == bm.boardID && r.userID == bm.userID) = none := by
      rw [List.find?_eq_none]
      intro x hx
      have hfalse : rows.any
          (fun r => r.boardID == bm.boardID && r.userID == bm.userID) = false :=
        Bool.eq_false_iff.mpr hex
      have := List.any_eq_false.mp hfalse x hx
      simpa using this
    rw [hnone]
    simp [Option.elim]

/-- Counterexample to claim C6 as stated: the first explicit save of `user1`
on the channel-linked board `b5` is the pair's first save (no explicit row
existed), yet it appends zero `"created"` history rows — because `user1`
already had a synthetic channel membership, which the pre-save
`getMemberForBoard` lookup also finds. -/
theorem saveMember_first_save_counterexample :
    findMemberRow stChanLinked "b5" bmUser1B5.userID = none ∧
    stChanLinked.membersHistory = [] ∧
    firstSaveHistoryB5 = some [] :=
  ⟨rfl, rfl, rfl⟩

/-- Claim C6, amended: a save appends exactly one `"created"` history row iff
the preceding effective-membership lookup (`getMemberForBoard`, which sees
explicit rows and synthetic memberships alike) found none — so a first
explicit save writes zero history rows when a synthetic membership already
covered the pair — while every save, first or subsequent, unconditionally
overwrites the four capability flags of the stored row; whenever an explicit
row already existed the history is left unchanged. -/
theorem saveMember_history_created (env : Env) (st : StoreState) (bm : BoardMember) :
    ∃ st', saveMember env st bm = Except.ok (bm, st') ∧
      st'.membersHistory = st.membersHistory ++
        (if (getMemberForBoard env st bm.boardID bm.userID).toOption.isSome then []
         else [{ boardID := bm.boardID, userID := bm.userID, action := "created" }]) ∧
      (findMemberRow st' bm.boardID bm.userID).map
          (fun r => (r.schemeAdmin, r.schemeEditor, r.schemeCommenter, r.schemeViewer)) =
        some (bm.schemeAdmin, bm.schemeEditor, bm.schemeCommenter, bm.schemeViewer) ∧
      (findMemberRow st bm.boardID bm.userID = none ∨
        st'.membersHistory = st.membersHistory) := by
  cases hgm : getMemberForBoard env st bm.boardID bm.userID with
  | ok m =>
      unfold saveMember
      rw [hgm]
      refine ⟨_, rfl, ?_, ?_, ?_⟩
      · simp [Except.toOption]
      · unfold findMemberRow
        rw [upsertMemberRows_find?]
        rfl
      · exact Or.inr rfl
  | error e =>
      unfold saveMember
      rw [hgm]
      refine ⟨_, rfl, ?_, ?_, ?_⟩
      · simp [Except.toOption]
      · unfold findMemberRow
        rw [upsertMemberRows_find?]
        rfl
      · cases hfr : findMemberRow st bm.boardID bm.userID with
        | none => exact Or.inl rfl
        | some r =>
            unfold getMemberForBoard at hgm
            rw [hfr] at hgm
            exact Except.noConfusion hgm

/-- Claim C9: `saveMember` persists the `roles` column independently of the
supplied member's `Roles` value — the insert hardcodes it to the empty
string and the conflict clause leaves it untouched (rewriting only the four
capability flags) — and the value returned to the caller is the input
member itself, not a re-read of the stored row. -/
theorem saveMember_roles_hardcoded (env : Env) (st : StoreState) (bm : BoardMember) :
    ∃ st', saveMember env st bm = Except.ok (bm, st') ∧
      st'.boardMembers = upsertMemberRows st.boardMembers bm ∧
      (findMemberRow st' bm.boardID bm.userID).map MemberRow.roles =
        some ((findMemberRow st bm.boardID bm.userID).elim "" MemberRow.roles) := by
  cases hgm : getMemberForBoard env st bm.boardID bm.userID with
  | ok m =>
      unfold saveMember
      rw [hgm]
      refine ⟨_, rfl, rfl, ?_⟩
      unfold findMemberRow
      rw [upsertMemberRows_find?]
      rfl
  | error e =>
      unfold saveMember
      rw [hgm]
      refine ⟨_, rfl, rfl, ?_⟩
      unfold findMemberRow
      rw [upsertMemberRows_find?]
      rfl
